import Mathlib

/-!
Shallow embedding of oscar_vat_moss/vat.py (django-oscar-vat_moss).

Python Decimal values are modelled as rationals; Decimal.quantize(D("0.01"))
with the default ROUND_HALF_EVEN context is modelled by quantize2 below.
The external collaborators (vat_moss.id.validate, the billing-address rate
service, the phone-number rate service, and the Django setting
VAT_MOSS_STORE_COUNTRY_CODE) are modelled as an oracle record Env.
Python exceptions are modelled by an Except monad over the inductive Exc;
catching an exception class corresponds to testing the Exc constructor.
Every external call made is recorded in a trace (List Call), so that
short-circuit properties ("no lookup occurs") are statable.
-/

deriving instance DecidableEq for Except

/-- Rates and money amounts (Python Decimal) are modelled as rationals. -/
abbrev Rate := ℚ

/-- The exception universe of vat.py: the vat_moss error classes that the
module imports, Python runtime errors it can hit, and its own exception
classes (each carrying the message its constructor builds, plus the
constructor arguments it stores). -/
inductive Exc where
  | invalidError
  | undefinitiveError
  | urlError
  | webServiceError
  | webServiceUnavailableError
  | attributeError (message : String)
  | typeError (message : String)
  | vatAssessment (message : String)
  | vatAssessmentUnavailable (message : String)
  | countryInvalidForVATIN (message : String) (vatin : String) (country : String)
  | vatinCountrySameAsStore (message : String) (vatin : String) (country : String)
  deriving DecidableEq

/-- The class test performed by the clause
except (URLError, WebServiceError, WebServiceUnavailableError)
in lookup_vat_for_address. -/
def Exc.isTransientServiceError : Exc → Bool
  | .urlError => true
  | .webServiceError => true
  | .webServiceUnavailableError => true
  | _ => false

/-- The class test performed by the clause
except VATINCountrySameAsStoreException in lookup_vat. -/
def Exc.isVatinCountrySameAsStore : Exc → Bool
  | .vatinCountrySameAsStore _ _ _ => true
  | _ => false

/-- One call to an external service, recorded in the trace. -/
inductive Call where
  | validateVatin (vatin : String)
  | addressRate (country : String) (postcode : String) (city : String)
  | phoneRate (phone : String) (country : String)
  deriving DecidableEq

/-- The triple (rate, country, exception) returned by
vat_moss.billing_address.calculate_rate and
vat_moss.phone_number.calculate_rate; exception is a statutory VAT
exception name, not a Python error. -/
structure RateLookupResult where
  rate : Rate
  country : String
  exception : Option String
  deriving DecidableEq

/-- The external collaborators: the VATIN registry (returns the triple
(country, normalized id, registered company) or fails), the two rate
services, and the store country code from Django settings. -/
structure Env where
  validateVatin : String → Except Exc (String × String × String)
  addressRate : String → String → String → Except Exc RateLookupResult
  phoneRate : String → String → Except Exc RateLookupResult
  VAT_MOSS_STORE_COUNTRY_CODE : String

/-- Modelled from the spec: oscar_vat_moss.util.u is part of this
repository but not under src/; it is the python2/3 unicode coercion
applied to every string handed to the vat_moss services, and on the
plain strings of this model it is the identity. -/
def u (s : String) : String := s

/-- VERIFICATIONS_NEEDED = 2 (vat.py line 19). -/
def VERIFICATIONS_NEEDED : Nat := 2

/-- Round a rational to the nearest integer, ties to even
(Python Decimal default rounding ROUND_HALF_EVEN). -/
def roundHalfEven (q : ℚ) : ℤ :=
  let f := ⌊q⌋
  let frac := q - (f : ℚ)
  if frac < 1/2 then f
  else if 1/2 < frac then f + 1
  else if f % 2 = 0 then f else f + 1

/-- Decimal.quantize(D("0.01")) under ROUND_HALF_EVEN: round to a
multiple of 1/100, ties to even. -/
def quantize2 (q : ℚ) : ℚ :=
  ((roundHalfEven (q * 100) : ℤ) : ℚ) / 100

/-- calculate_tax(price, rate) (vat.py lines 165-167). -/
def calculate_tax (price rate : ℚ) : ℚ :=
  let tax := price * rate
  quantize2 tax

/-- Message of CountryInvalidForVATINException (vat.py lines 192-197). -/
def country_invalid_message (vatin country : String) : String :=
  "VATIN " ++ vatin ++ " is not from \"" ++ country ++ "\""

/-- Message of VATINCountrySameAsStoreException (vat.py lines 200-205). -/
def same_as_store_message (vatin country : String) : String :=
  "VATIN " ++ vatin ++ " is from same country as store (" ++ country ++ ")"

/-- lookup_vat_by_vatin (vat.py lines 122-141): validate the VATIN via the
registry, fail if its registered country differs from the supplied
country code, signal same-country-as-store if the supplied country code
is the store country, else return the zero rate (reverse charge). -/
def lookup_vat_by_vatin (env : Env) (country_code vatin company_name : String) :
    Except Exc Rate × List Call :=
  let log := [Call.validateVatin (u vatin)]
  match env.validateVatin (u vatin) with
  | .error e => (.error e, log)
  | .ok (vatin_country, _vatin_normalized, _vatin_company) =>
    if vatin_country ≠ country_code then
      (.error (.countryInvalidForVATIN (country_invalid_message vatin country_code)
                vatin country_code), log)
    else if country_code = env.VAT_MOSS_STORE_COUNTRY_CODE then
      (.error (.vatinCountrySameAsStore (same_as_store_message vatin country_code)
                vatin country_code), log)
    else
      (.ok 0, log)

/-- lookup_vat_by_city (vat.py lines 144-152): call the address-rate
service and keep only the rate of the returned triple. -/
def lookup_vat_by_city (env : Env) (country_code postcode city : String) :
    Except Exc Rate × List Call :=
  let log := [Call.addressRate (u country_code) (u postcode) (u city)]
  match env.addressRate (u country_code) (u postcode) (u city) with
  | .ok res => (.ok res.rate, log)
  | .error e => (.error e, log)

/-- lookup_vat_by_phone_number (vat.py lines 155-162): call the
phone-rate service and keep only the rate of the returned triple. -/
def lookup_vat_by_phone_number (env : Env) (phone_number country_code : String) :
    Except Exc Rate × List Call :=
  let log := [Call.phoneRate (u phone_number) (u country_code)]
  match env.phoneRate (u phone_number) (u country_code) with
  | .ok res => (.ok res.rate, log)
  | .error e => (.error e, log)

/-- The address signal of lookup_vat (vat.py lines 92-100): attempted
only when city and country_code are both non-empty; an UndefinitiveError
is absorbed into "no result" (ok none); other errors propagate. -/
def address_signal (env : Env) (city country_code postcode : String) :
    Except Exc (Option Rate) × List Call :=
  if city ≠ "" ∧ country_code ≠ "" then
    match lookup_vat_by_city env country_code postcode city with
    | (.ok r, log) => (.ok (some r), log)
    | (.error e, log) =>
      if e = .undefinitiveError then (.ok none, log) else (.error e, log)
  else (.ok none, [])

/-- The phone signal of lookup_vat (vat.py lines 102-108): attempted only
when phone_number is non-empty; an UndefinitiveError is absorbed into
"no result" (ok none); other errors propagate. -/
def phone_signal (env : Env) (phone_number country_code : String) :
    Except Exc (Option Rate) × List Call :=
  if phone_number ≠ "" then
    match lookup_vat_by_phone_number env phone_number country_code with
    | (.ok r, log) => (.ok (some r), log)
    | (.error e, log) =>
      if e = .undefinitiveError then (.ok none, log) else (.error e, log)
  else (.ok none, [])

/-- The corroboration tail of lookup_vat (vat.py lines 92-119): gather the
two signals in order, count the verifications, require at least
VERIFICATIONS_NEEDED, require the two recorded rates to be equal
(Python compares the Optional values address_vat_rate and
phone_vat_rate), and return address_vat_rate. -/
def lookup_vat_corroborate (env : Env) (city country_code postcode phone_number : String) :
    Except Exc (Option Rate) × List Call :=
  match address_signal env city country_code postcode with
  | (.error e, log1) => (.error e, log1)
  | (.ok address_vat_rate, log1) =>
    match phone_signal env phone_number country_code with
    | (.error e, log2) => (.error e, log1 ++ log2)
    | (.ok phone_vat_rate, log2) =>
      let verifications :=
        (if address_vat_rate.isSome then 1 else 0) +
        (if phone_vat_rate.isSome then 1 else 0)
      if verifications < VERIFICATIONS_NEEDED then
        (.error (.vatAssessment "Insufficent information for VAT assessment"),
         log1 ++ log2)
      else if address_vat_rate ≠ phone_vat_rate then
        (.error (.vatAssessment ("Unable to work out applicable VAT rate " ++
          "based on address and phone information")), log1 ++ log2)
      else
        (.ok address_vat_rate, log1 ++ log2)

/-- lookup_vat (vat.py lines 75-119): if a VATIN is present try the
reverse-charge path first, turning InvalidError into an assessment
failure and absorbing the same-country-as-store signal (falling through
to corroboration); otherwise corroborate address and phone rates.
The Python function returns a Decimal on the VATIN path and the
Optional address_vat_rate on the corroboration path, so the result type
is Option Rate. -/
def lookup_vat (env : Env) (company city country_code postcode phone_number vatin : String) :
    Except Exc (Option Rate) × List Call :=
  if vatin ≠ "" then
    match lookup_vat_by_vatin env country_code vatin company with
    | (.ok r, log) => (.ok (some r), log)
    | (.error e, log) =>
      if e = .invalidError then
        (.error (.vatAssessment "Invalid VAT Identification Number (VATIN)"), log)
      else if e.isVatinCountrySameAsStore then
        let rest := lookup_vat_corroborate env city country_code postcode phone_number
        (rest.1, log ++ rest.2)
      else
        (.error e, log)
  else
    lookup_vat_corroborate env city country_code postcode phone_number

/-- The country attribute of a Django address object; only its code field
is read by vat.py. -/
structure Country where
  code : String
  deriving DecidableEq

/-- An address-like object as read by lookup_vat_for_address: each field
is present (some) or absent (none); getattr(a, f, "") yields the empty
string for an absent field. -/
structure Address where
  organisation : Option String
  line4 : Option String
  country : Option Country
  postcode : Option String
  phone_number : Option String
  vatin : Option String
  deriving DecidableEq

/-- Evaluation of country.code where country came from
getattr(address, "country", ""): when the attribute is absent the
default is the string "", and reading .code on a str raises
AttributeError. -/
def country_code_attr (country : Option Country) : Except Exc String :=
  match country with
  | some c => .ok c.code
  | none => .error (.attributeError "str object has no attribute code")

/-- lookup_vat_for_address (vat.py lines 51-72): extract the six fields
with getattr defaults, read country.code, delegate to lookup_vat, and
wrap URLError / WebServiceError / WebServiceUnavailableError into
VATAssessmentUnavailableException. -/
def lookup_vat_for_address (env : Env) (address : Address) :
    Except Exc (Option Rate) × List Call :=
  let company := address.organisation.getD ""
  let city := address.line4.getD ""
  let postcode := address.postcode.getD ""
  let phone_number := address.phone_number.getD ""
  let vatin := address.vatin.getD ""
  match country_code_attr address.country with
  | .error e => (.error e, [])
  | .ok ccode =>
    match lookup_vat env company city ccode postcode phone_number vatin with
    | (.ok r, log) => (.ok r, log)
    | (.error e, log) =>
      if e.isTransientServiceError then
        (.error (.vatAssessmentUnavailable "Temporary error in VAT assessment"), log)
      else
        (.error e, log)

/-- A basket line: its price excluding tax including discounts, its
quantity, and the per-unit tax field purchase_info.price.tax that
apply_to writes (flattened onto the line). -/
structure Line where
  line_price_excl_tax_incl_discounts : ℚ
  quantity : ℕ
  tax : Option ℚ
  deriving DecidableEq

/-- The shipping charge: price excluding tax and the tax field apply_to
writes. -/
structure ShippingCharge where
  excl_tax : ℚ
  tax : Option ℚ
  deriving DecidableEq

/-- A submission: the basket lines (submission["basket"].all_lines()),
the shipping address and the shipping charge. -/
structure Submission where
  basket : List Line
  shipping_address : Address
  shipping_charge : ShippingCharge
  deriving DecidableEq

/-- lookup_vat_for_submission (vat.py lines 38-40). -/
def lookup_vat_for_submission (env : Env) (submission : Submission) :
    Except Exc (Option Rate) × List Call :=
  lookup_vat_for_address env submission.shipping_address

/-- The loop body of apply_to (vat.py lines 25-29): line_tax is the
quantized line price times rate, unit_tax quantizes line_tax divided by
the quantity, and only the tax field of the line is written. -/
def apply_line (rate : ℚ) (line : Line) : Line :=
  let line_tax := calculate_tax line.line_price_excl_tax_incl_discounts rate
  let unit_tax := quantize2 (line_tax / (line.quantity : ℚ))
  { line with tax := some unit_tax }

/-- apply_to (vat.py lines 22-35): resolve the rate for the submission,
write for each line the unit tax and the shipping tax. The in-place mutation
of the submission is modelled by returning the updated submission; the
ok-none branch is where Python would raise a TypeError multiplying a
Decimal by None (it is unreachable, see lookup_vat_ok_isSome). -/
def apply_to (env : Env) (submission : Submission) : Except Exc Submission :=
  match (lookup_vat_for_submission env submission).1 with
  | .error e => .error e
  | .ok none => .error (.typeError "unsupported operand types for multiplication")
  | .ok (some rate) =>
    .ok { submission with
          basket := submission.basket.map (apply_line rate),
          shipping_charge := { submission.shipping_charge with
            tax := some (calculate_tax submission.shipping_charge.excl_tax rate) } }

/-! ## Helper lemmas -/

theorem lookup_vat_no_vatin (env : Env)
    (company city country_code postcode phone_number : String) :
    lookup_vat env company city country_code postcode phone_number "" =
      lookup_vat_corroborate env city country_code postcode phone_number := by
  simp [lookup_vat]

theorem lookup_vat_vatin_same_store (env : Env)
    (company city country_code postcode phone_number vatin n cn : String)
    (hv : vatin ≠ "")
    (hval : env.validateVatin (u vatin) = .ok (country_code, n, cn))
    (hst : country_code = env.VAT_MOSS_STORE_COUNTRY_CODE) :
    lookup_vat env company city country_code postcode phone_number vatin =
      ((lookup_vat_corroborate env city country_code postcode phone_number).1,
       Call.validateVatin (u vatin) ::
         (lookup_vat_corroborate env city country_code postcode phone_number).2) := by
  unfold lookup_vat lookup_vat_by_vatin
  rw [if_pos hv, hval]
  simp [hst, Exc.isVatinCountrySameAsStore]

theorem address_signal_not_attempted (env : Env) (city country_code postcode : String)
    (h : ¬ (city ≠ "" ∧ country_code ≠ "")) :
    address_signal env city country_code postcode = (.ok none, []) := by
  simp only [address_signal, if_neg h]

theorem address_signal_of_ok (env : Env) (city country_code postcode : String)
    (res : RateLookupResult)
    (hcity : city ≠ "") (hcc : country_code ≠ "")
    (h : env.addressRate (u country_code) (u postcode) (u city) = .ok res) :
    address_signal env city country_code postcode =
      (.ok (some res.rate),
       [Call.addressRate (u country_code) (u postcode) (u city)]) := by
  unfold address_signal lookup_vat_by_city
  rw [if_pos ⟨hcity, hcc⟩, h]

theorem address_signal_of_undefinitive (env : Env) (city country_code postcode : String)
    (hcity : city ≠ "") (hcc : country_code ≠ "")
    (h : env.addressRate (u country_code) (u postcode) (u city) =
      .error .undefinitiveError) :
    address_signal env city country_code postcode =
      (.ok none, [Call.addressRate (u country_code) (u postcode) (u city)]) := by
  unfold address_signal lookup_vat_by_city
  rw [if_pos ⟨hcity, hcc⟩, h]
  simp

theorem phone_signal_not_attempted (env : Env) (phone_number country_code : String)
    (h : ¬ phone_number ≠ "") :
    phone_signal env phone_number country_code = (.ok none, []) := by
  simp only [phone_signal, if_neg h]

theorem phone_signal_of_ok (env : Env) (phone_number country_code : String)
    (res : RateLookupResult)
    (hph : phone_number ≠ "")
    (h : env.phoneRate (u phone_number) (u country_code) = .ok res) :
    phone_signal env phone_number country_code =
      (.ok (some res.rate), [Call.phoneRate (u phone_number) (u country_code)]) := by
  unfold phone_signal lookup_vat_by_phone_number
  rw [if_pos hph, h]

theorem phone_signal_of_undefinitive (env : Env) (phone_number country_code : String)
    (hph : phone_number ≠ "")
    (h : env.phoneRate (u phone_number) (u country_code) = .error .undefinitiveError) :
    phone_signal env phone_number country_code =
      (.ok none, [Call.phoneRate (u phone_number) (u country_code)]) := by
  unfold phone_signal lookup_vat_by_phone_number
  rw [if_pos hph, h]
  simp

theorem corroborate_insufficient (env : Env)
    (city country_code postcode phone_number : String)
    (a p : Option Rate) (la lp : List Call)
    (hA : address_signal env city country_code postcode = (.ok a, la))
    (hP : phone_signal env phone_number country_code = (.ok p, lp))
    (h : a = none ∨ p = none) :
    lookup_vat_corroborate env city country_code postcode phone_number =
      (.error (.vatAssessment "Insufficent information for VAT assessment"),
       la ++ lp) := by
  unfold lookup_vat_corroborate
  rw [hA, hP]
  rcases h with h | h
  · subst h
    cases p <;> simp [VERIFICATIONS_NEEDED]
  · subst h
    cases a <;> simp [VERIFICATIONS_NEEDED]

theorem corroborate_both (env : Env)
    (city country_code postcode phone_number : String)
    (ra rp : ℚ) (la lp : List Call)
    (hA : address_signal env city country_code postcode = (.ok (some ra), la))
    (hP : phone_signal env phone_number country_code = (.ok (some rp), lp)) :
    lookup_vat_corroborate env city country_code postcode phone_number =
      (if ra = rp then (.ok (some ra), la ++ lp)
       else (.error (.vatAssessment ("Unable to work out applicable VAT rate " ++
         "based on address and phone information")), la ++ lp)) := by
  unfold lookup_vat_corroborate
  rw [hA, hP]
  by_cases hr : ra = rp <;> simp [VERIFICATIONS_NEEDED, hr]

theorem address_signal_fst_some (env : Env) (city country_code postcode : String)
    (r : ℚ)
    (h : (address_signal env city country_code postcode).1 = .ok (some r)) :
    (lookup_vat_by_city env country_code postcode city).1 = .ok r ∧
      city ≠ "" ∧ country_code ≠ "" := by
  unfold address_signal at h
  by_cases hc : city ≠ "" ∧ country_code ≠ ""
  · rw [if_pos hc] at h
    rcases hx : lookup_vat_by_city env country_code postcode city with ⟨re, lg⟩
    rw [hx] at h
    cases re with
    | ok rr =>
      simp at h
      exact ⟨by simp [h], hc⟩
    | error e =>
      by_cases he : e = Exc.undefinitiveError <;> simp [he] at h
  · rw [if_neg hc] at h
    simp at h

theorem phone_signal_fst_some (env : Env) (phone_number country_code : String)
    (r : ℚ)
    (h : (phone_signal env phone_number country_code).1 = .ok (some r)) :
    (lookup_vat_by_phone_number env phone_number country_code).1 = .ok r ∧
      phone_number ≠ "" := by
  unfold phone_signal at h
  by_cases hc : phone_number ≠ ""
  · rw [if_pos hc] at h
    rcases hx : lookup_vat_by_phone_number env phone_number country_code with ⟨re, lg⟩
    rw [hx] at h
    cases re with
    | ok rr =>
      simp at h
      exact ⟨by simp [h], hc⟩
    | error e =>
      by_cases he : e = Exc.undefinitiveError <;> simp [he] at h
  · rw [if_neg hc] at h
    simp at h

theorem corroborate_fst_ok (env : Env)
    (city country_code postcode phone_number : String) (o : Option Rate)
    (h : (lookup_vat_corroborate env city country_code postcode phone_number).1 =
      .ok o) :
    ∃ r, o = some r ∧
      (address_signal env city country_code postcode).1 = .ok (some r) ∧
      (phone_signal env phone_number country_code).1 = .ok (some r) := by
  unfold lookup_vat_corroborate at h
  rcases hA : address_signal env city country_code postcode with ⟨ae, la⟩
  rw [hA] at h
  cases ae with
  | error e => simp at h
  | ok a =>
    rcases hP : phone_signal env phone_number country_code with ⟨pe, lp⟩
    rw [hP] at h
    cases pe with
    | error e => simp at h
    | ok p =>
      simp only at h
      by_cases hv : ((if a.isSome then 1 else 0) + (if p.isSome then 1 else 0) <
          VERIFICATIONS_NEEDED)
      · rw [if_pos hv] at h
        simp at h
      · rw [if_neg hv] at h
        by_cases hne : a ≠ p
        · rw [if_pos hne] at h
          simp at h
        · rw [if_neg hne] at h
          simp only [Except.ok.injEq] at h
          push_neg at hne
          cases a with
          | none =>
            subst hne
            simp [VERIFICATIONS_NEEDED] at hv
          | some ra =>
            refine ⟨ra, h.symm, rfl, ?_⟩
            rw [← hne]

theorem lookup_vat_by_vatin_foreign (env : Env)
    (country_code vatin company n cn : String)
    (hval : env.validateVatin (u vatin) = .ok (country_code, n, cn))
    (hst : country_code ≠ env.VAT_MOSS_STORE_COUNTRY_CODE) :
    lookup_vat_by_vatin env country_code vatin company =
      (.ok 0, [Call.validateVatin (u vatin)]) := by
  unfold lookup_vat_by_vatin
  rw [hval]
  simp [hst]

theorem lookup_vat_by_vatin_fst_ok (env : Env)
    (country_code vatin company : String) (rv : ℚ)
    (h : (lookup_vat_by_vatin env country_code vatin company).1 = .ok rv) :
    rv = 0 ∧ ∃ n cn, env.validateVatin (u vatin) = .ok (country_code, n, cn) ∧
      country_code ≠ env.VAT_MOSS_STORE_COUNTRY_CODE := by
  unfold lookup_vat_by_vatin at h
  cases hval : env.validateVatin (u vatin) with
  | error e =>
    rw [hval] at h
    simp at h
  | ok t =>
    obtain ⟨vc, n, cn⟩ := t
    rw [hval] at h
    by_cases h1 : vc ≠ country_code
    · simp [h1] at h
    · push_neg at h1
      subst h1
      by_cases h2 : vc = env.VAT_MOSS_STORE_COUNTRY_CODE
      · simp [h2] at h
      · simp [h2] at h
        exact ⟨h.symm, n, cn, rfl, h2⟩

theorem lookup_vat_fst_ok_cases (env : Env)
    (company city country_code postcode phone_number vatin : String) (o : Option Rate)
    (h : (lookup_vat env company city country_code postcode phone_number vatin).1 =
      .ok o) :
    (o = some 0 ∧ vatin ≠ "" ∧ ∃ n cn,
        env.validateVatin (u vatin) = .ok (country_code, n, cn) ∧
        country_code ≠ env.VAT_MOSS_STORE_COUNTRY_CODE) ∨
    (∃ r, o = some r ∧
        (address_signal env city country_code postcode).1 = .ok (some r) ∧
        (phone_signal env phone_number country_code).1 = .ok (some r)) := by
  by_cases hv : vatin ≠ ""
  · unfold lookup_vat at h
    rw [if_pos hv] at h
    rcases hV : lookup_vat_by_vatin env country_code vatin company with ⟨ve, vl⟩
    rw [hV] at h
    cases ve with
    | ok rv =>
      simp at h
      obtain ⟨h0, n, cn, hval, hst⟩ :=
        lookup_vat_by_vatin_fst_ok env country_code vatin company rv (by rw [hV])
      exact Or.inl ⟨by rw [← h, h0], hv, n, cn, hval, hst⟩
    | error e =>
      by_cases h1 : e = Exc.invalidError
      · simp [h1] at h
      · by_cases h2 : e.isVatinCountrySameAsStore
        · simp [h1, h2] at h
          rcases corroborate_fst_ok env city country_code postcode phone_number o h with
            ⟨r, ho, hA, hP⟩
          exact Or.inr ⟨r, ho, hA, hP⟩
        · simp [h1, h2] at h
  · push_neg at hv
    subst hv
    rw [lookup_vat_no_vatin] at h
    rcases corroborate_fst_ok env city country_code postcode phone_number o h with
      ⟨r, ho, hA, hP⟩
    exact Or.inr ⟨r, ho, hA, hP⟩

theorem lookup_vat_ok_isSome (env : Env)
    (company city country_code postcode phone_number vatin : String) (o : Option Rate)
    (h : (lookup_vat env company city country_code postcode phone_number vatin).1 =
      .ok o) :
    o.isSome = true := by
  rcases lookup_vat_fst_ok_cases env company city country_code postcode phone_number
      vatin o h with ⟨ho, -⟩ | ⟨r, ho, -⟩ <;> simp [ho]

theorem address_signal_classify (env : Env) (city country_code postcode : String)
    (ha : city = "" ∨ country_code = "" ∨
        env.addressRate (u country_code) (u postcode) (u city) =
          .error .undefinitiveError ∨
        ∃ res, env.addressRate (u country_code) (u postcode) (u city) = .ok res) :
    ∃ a la, address_signal env city country_code postcode = (.ok a, la) ∧
      (a.isSome = true ↔ (city ≠ "" ∧ country_code ≠ "" ∧
        ∃ res, env.addressRate (u country_code) (u postcode) (u city) = .ok res)) := by
  by_cases hc : city ≠ "" ∧ country_code ≠ ""
  · rcases ha with h | h | h | ⟨res, h⟩
    · exact absurd h hc.1
    · exact absurd h hc.2
    · refine ⟨none, _,
        address_signal_of_undefinitive env city country_code postcode hc.1 hc.2 h, ?_⟩
      simp only [Option.isSome_none, Bool.false_eq_true, false_iff]
      rintro ⟨-, -, res, hres⟩
      rw [h] at hres
      cases hres
    · refine ⟨some res.rate, _,
        address_signal_of_ok env city country_code postcode res hc.1 hc.2 h, ?_⟩
      simp only [Option.isSome_some, true_iff]
      exact ⟨hc.1, hc.2, res, h⟩
  · refine ⟨none, [], address_signal_not_attempted env city country_code postcode hc, ?_⟩
    simp only [Option.isSome_none, Bool.false_eq_true, false_iff]
    rintro ⟨h1, h2, -⟩
    exact hc ⟨h1, h2⟩

theorem phone_signal_classify (env : Env) (phone_number country_code : String)
    (hp : phone_number = "" ∨
        env.phoneRate (u phone_number) (u country_code) = .error .undefinitiveError ∨
        ∃ res, env.phoneRate (u phone_number) (u country_code) = .ok res) :
    ∃ p lp, phone_signal env phone_number country_code = (.ok p, lp) ∧
      (p.isSome = true ↔ (phone_number ≠ "" ∧
        ∃ res, env.phoneRate (u phone_number) (u country_code) = .ok res)) := by
  by_cases hc : phone_number ≠ ""
  · rcases hp with h | h | ⟨res, h⟩
    · exact absurd h hc
    · refine ⟨none, _,
        phone_signal_of_undefinitive env phone_number country_code hc h, ?_⟩
      simp only [Option.isSome_none, Bool.false_eq_true, false_iff]
      rintro ⟨-, res, hres⟩
      rw [h] at hres
      cases hres
    · refine ⟨some res.rate, _,
        phone_signal_of_ok env phone_number country_code res hc h, ?_⟩
      simp only [Option.isSome_some, true_iff]
      exact ⟨hc, res, h⟩
  · refine ⟨none, [], phone_signal_not_attempted env phone_number country_code hc, ?_⟩
    simp only [Option.isSome_none, Bool.false_eq_true, false_iff]
    rintro ⟨h1, -⟩
    exact hc h1

/-- Builder for the concrete oracle environments used by the witnesses:
the registry, the address-rate service and the phone-rate service each
give a fixed answer. -/
def testEnv (store : String) (vres : Except Exc (String × String × String))
    (ares pres : Except Exc RateLookupResult) : Env where
  validateVatin := fun _ => vres
  addressRate := fun _ _ _ => ares
  phoneRate := fun _ _ => pres
  VAT_MOSS_STORE_COUNTRY_CODE := store

/-! ## Claims -/

/-- C1: every rate lookup_vat returns is either the zero rate produced by
the validated-foreign-VATIN reverse-charge path, or a value obtained from
the address-rate lookup that is exactly equal to the value obtained from
the phone-rate lookup; it never returns a rate derived from only one of
the two signals. -/
theorem c1_lookup_vat_rate_corroborated (env : Env)
    (company city country_code postcode phone_number vatin : String) (r : ℚ)
    (h : (lookup_vat env company city country_code postcode phone_number vatin).1 =
      .ok (some r)) :
    (r = 0 ∧ vatin ≠ "" ∧ ∃ n cn,
        env.validateVatin (u vatin) = .ok (country_code, n, cn) ∧
        country_code ≠ env.VAT_MOSS_STORE_COUNTRY_CODE) ∨
    ((lookup_vat_by_city env country_code postcode city).1 = .ok r ∧
     (lookup_vat_by_phone_number env phone_number country_code).1 = .ok r) := by
  rcases lookup_vat_fst_ok_cases env company city country_code postcode phone_number
      vatin (some r) h with ⟨ho, hv, n, cn, hval, hst⟩ | ⟨r2, ho, hA, hP⟩
  · left
    obtain rfl : r = 0 := by simpa using ho
    exact ⟨rfl, hv, n, cn, hval, hst⟩
  · right
    have hr : r2 = r := by simpa using ho.symm
    rw [hr] at hA hP
    obtain ⟨hc, -, -⟩ := address_signal_fst_some env city country_code postcode r hA
    obtain ⟨hp, -⟩ := phone_signal_fst_some env phone_number country_code r hP
    exact ⟨hc, hp⟩

/-- Concrete environment for the C1 witness: no usable VATIN, both rate
services agree on 20 percent. -/
def envC1 : Env :=
  testEnv "DE" (.error .invalidError)
    (.ok { rate := 1/5, country := "AT", exception := none })
    (.ok { rate := 1/5, country := "AT", exception := none })

/-- C1 witness: on a concrete input lookup_vat returns 20 percent, and the
theorem yields that this rate was corroborated by both lookups. -/
theorem c1_witness :
    (lookup_vat envC1 "ACME" "Wien" "AT" "1010" "+43123" "").1 = .ok (some (1/5)) ∧
    (((1 : ℚ)/5 = 0 ∧ "" ≠ "" ∧ ∃ n cn,
        envC1.validateVatin (u "") = .ok ("AT", n, cn) ∧
        "AT" ≠ envC1.VAT_MOSS_STORE_COUNTRY_CODE) ∨
     ((lookup_vat_by_city envC1 "AT" "1010" "Wien").1 = .ok (1/5) ∧
      (lookup_vat_by_phone_number envC1 "+43123" "AT").1 = .ok (1/5))) :=
  by
  have h : (lookup_vat envC1 "ACME" "Wien" "AT" "1010" "+43123" "").1 =
      .ok (some (1/5)) := by
    simp +decide [lookup_vat, lookup_vat_corroborate, address_signal, phone_signal,
      lookup_vat_by_city, lookup_vat_by_phone_number, envC1, testEnv, u,
      VERIFICATIONS_NEEDED]
  exact ⟨h, c1_lookup_vat_rate_corroborated envC1 "ACME" "Wien" "AT" "1010" "+43123" ""
    (1/5) h⟩

/-- C2: a non-empty VATIN whose registry-validated country equals the
supplied country code and differs from the store country makes
lookup_vat return the zero rate immediately; the trace contains only the
registry call, so neither the address-rate nor the phone-rate lookup is
invoked. -/
theorem c2_foreign_vatin_short_circuit (env : Env)
    (company city country_code postcode phone_number vatin n cn : String)
    (hv : vatin ≠ "")
    (hval : env.validateVatin (u vatin) = .ok (country_code, n, cn))
    (hst : country_code ≠ env.VAT_MOSS_STORE_COUNTRY_CODE) :
    lookup_vat env company city country_code postcode phone_number vatin =
      (.ok (some 0), [Call.validateVatin (u vatin)]) := by
  unfold lookup_vat
  rw [if_pos hv,
    lookup_vat_by_vatin_foreign env country_code vatin company n cn hval hst]

/-- Concrete environment for the C2 witness: the registry validates the
VATIN as Austrian, the store is German, and both rate services would
answer if asked. -/
def envC2 : Env :=
  testEnv "DE" (.ok ("AT", "ATU1", "ACME"))
    (.ok { rate := 1/10, country := "AT", exception := none })
    (.ok { rate := 1/10, country := "AT", exception := none })

/-- C2 witness: with city and phone number available, a validated foreign
VATIN still short-circuits to the zero rate with only the registry call
in the trace. -/
theorem c2_witness :
    ("ATU1" ≠ "" ∧ envC2.validateVatin (u "ATU1") = .ok ("AT", "ATU1", "ACME") ∧
      "AT" ≠ envC2.VAT_MOSS_STORE_COUNTRY_CODE) ∧
    lookup_vat envC2 "ACME" "Wien" "AT" "1010" "+43123" "ATU1" =
      (.ok (some 0), [Call.validateVatin (u "ATU1")]) :=
  ⟨⟨by decide, by rfl, by decide⟩,
   c2_foreign_vatin_short_circuit envC2 "ACME" "Wien" "AT" "1010" "+43123" "ATU1"
     "ATU1" "ACME" (by decide) (by rfl) (by decide)⟩

/-- Concrete environment for C3: the registry reports the VATIN string
x123 as registered in DE; the store is in FI. -/
def envC3 : Env :=
  testEnv "FI" (.ok ("DE", "DEX", "ACME"))
    (.error .undefinitiveError) (.error .undefinitiveError)

/-- C3 counterexample: the registry-registered country is DE and the
supplied country code is AT, so the assessment fails with the
country-mismatch error, but its message is VATIN x123 is not from "AT":
it contains the VATIN string and the supplied country code, while the
registered country code DE appears nowhere in it (the message does not
even contain the character D). -/
theorem c3_counterexample :
    (lookup_vat envC3 "ACME" "" "AT" "" "" "x123").1 =
      .error (.countryInvalidForVATIN "VATIN x123 is not from \"AT\"" "x123" "AT") ∧
    envC3.validateVatin (u "x123") = .ok ("DE", "DEX", "ACME") ∧
    ("DE" : String) ≠ "AT" ∧
    'D' ∉ ("VATIN x123 is not from \"AT\"").toList :=
  ⟨by simp +decide [lookup_vat, lookup_vat_by_vatin, country_invalid_message,
      envC3, testEnv, u],
   by rfl, by decide, by decide⟩

/-- C3 amended: when the registry-registered country differs from the
supplied country code, lookup_vat fails with the country-mismatch error
whose message contains the VATIN string and the supplied country code
(not the registered country code), and only the registry was called. -/
theorem c3_country_mismatch_message (env : Env)
    (company city country_code postcode phone_number vatin vc n cn : String)
    (hv : vatin ≠ "")
    (hval : env.validateVatin (u vatin) = .ok (vc, n, cn))
    (hne : vc ≠ country_code) :
    lookup_vat env company city country_code postcode phone_number vatin =
      (.error (.countryInvalidForVATIN
        ("VATIN " ++ vatin ++ " is not from \"" ++ country_code ++ "\"")
        vatin country_code),
       [Call.validateVatin (u vatin)]) := by
  unfold lookup_vat lookup_vat_by_vatin
  rw [if_pos hv, hval]
  simp [hne, country_invalid_message, Exc.isVatinCountrySameAsStore]

/-- C3 witness: the amended theorem applied to the concrete registry of
envC3 with supplied country AT. -/
theorem c3_witness :
    ("x123" ≠ "" ∧ envC3.validateVatin (u "x123") = .ok ("DE", "DEX", "ACME") ∧
      ("DE" : String) ≠ "AT") ∧
    lookup_vat envC3 "ACME" "Wien" "AT" "1010" "+43123" "x123" =
      (.error (.countryInvalidForVATIN
        ("VATIN " ++ "x123" ++ " is not from \"" ++ "AT" ++ "\"") "x123" "AT"),
       [Call.validateVatin (u "x123")]) :=
  ⟨⟨by decide, by rfl, by decide⟩,
   c3_country_mismatch_message envC3 "ACME" "Wien" "AT" "1010" "+43123" "x123"
     "DE" "DEX" "ACME" (by decide) (by rfl) (by decide)⟩

/-- Concrete environment for C4: the registry reports the VATIN v1 as
registered in DE, which is also the store country; both rate services
agree on 20 percent. -/
def envC4 : Env :=
  testEnv "DE" (.ok ("DE", "v1", "ACME"))
    (.ok { rate := 1/5, country := "AT", exception := none })
    (.ok { rate := 1/5, country := "AT", exception := none })

/-- C4 counterexample: the registered country DE equals the store country
DE, but the supplied country code is AT, so lookup_vat raises the
country-mismatch error instead of absorbing a same-country signal: the
trace contains only the registry call (no address or phone lookup,
although city and phone number are present and the corroboration path
would have produced 20 percent). -/
theorem c4_counterexample :
    envC4.validateVatin (u "v1") = .ok ("DE", "v1", "ACME") ∧
    envC4.VAT_MOSS_STORE_COUNTRY_CODE = "DE" ∧
    lookup_vat envC4 "ACME" "Berlin" "AT" "10115" "+43660" "v1" =
      (.error (.countryInvalidForVATIN (country_invalid_message "v1" "AT")
        "v1" "AT"),
       [Call.validateVatin (u "v1")]) ∧
    (lookup_vat_corroborate envC4 "Berlin" "AT" "10115" "+43660").1 =
      .ok (some (1/5)) :=
  ⟨by rfl, by rfl,
   by simp +decide [lookup_vat, lookup_vat_by_vatin, country_invalid_message,
      envC4, testEnv, u],
   by simp +decide [lookup_vat_corroborate, address_signal, phone_signal,
      lookup_vat_by_city, lookup_vat_by_phone_number, envC4, testEnv, u,
      VERIFICATIONS_NEEDED]⟩

/-- C4 amended: when the registry-registered country equals the supplied
country code and that country is the store country, lookup_vat does not
short-circuit to the zero rate: the same-country signal is absorbed and
the outcome and the remaining external calls are exactly those of the
run with no VATIN (the address+phone corroboration path). -/
theorem c4_same_store_vatin_falls_through (env : Env)
    (company city country_code postcode phone_number vatin n cn : String)
    (hv : vatin ≠ "")
    (hval : env.validateVatin (u vatin) = .ok (country_code, n, cn))
    (hst : country_code = env.VAT_MOSS_STORE_COUNTRY_CODE) :
    lookup_vat env company city country_code postcode phone_number vatin =
      ((lookup_vat env company city country_code postcode phone_number "").1,
       Call.validateVatin (u vatin) ::
         (lookup_vat env company city country_code postcode phone_number "").2) := by
  rw [lookup_vat_no_vatin]
  exact lookup_vat_vatin_same_store env company city country_code postcode
    phone_number vatin n cn hv hval hst

/-- C4 witness: with the supplied country equal to the store country DE,
the same-country VATIN falls through and the corroborated 20 percent
rate of the no-VATIN run is returned, with the registry call prepended
to the trace of that run. -/
theorem c4_witness :
    ("v1" ≠ "" ∧ envC4.validateVatin (u "v1") = .ok ("DE", "v1", "ACME") ∧
      "DE" = envC4.VAT_MOSS_STORE_COUNTRY_CODE) ∧
    lookup_vat envC4 "ACME" "Berlin" "DE" "10115" "+4930" "v1" =
      ((lookup_vat envC4 "ACME" "Berlin" "DE" "10115" "+4930" "").1,
       Call.validateVatin (u "v1") ::
         (lookup_vat envC4 "ACME" "Berlin" "DE" "10115" "+4930" "").2) :=
  ⟨⟨by decide, by rfl, by rfl⟩,
   c4_same_store_vatin_falls_through envC4 "ACME" "Berlin" "DE" "10115" "+4930"
     "v1" "v1" "ACME" (by decide) (by rfl) (by rfl)⟩

/-- C5: on the corroboration path (empty VATIN, or a VATIN whose
validated country equals the supplied country and the store country so
that the same-country signal is absorbed), if each of the two signals is
either unattempted (missing input field) or indefinite or successful,
and fewer than two of them succeed, then lookup_vat raises the
business-rule assessment failure with the insufficient-information
message instead of returning a rate. -/
theorem c5_insufficient_information (env : Env)
    (company city country_code postcode phone_number vatin : String)
    (hpath : vatin = "" ∨ ∃ n cn,
        env.validateVatin (u vatin) = .ok (country_code, n, cn) ∧
        country_code = env.VAT_MOSS_STORE_COUNTRY_CODE)
    (ha : city = "" ∨ country_code = "" ∨
        env.addressRate (u country_code) (u postcode) (u city) =
          .error .undefinitiveError ∨
        ∃ res, env.addressRate (u country_code) (u postcode) (u city) = .ok res)
    (hp : phone_number = "" ∨
        env.phoneRate (u phone_number) (u country_code) = .error .undefinitiveError ∨
        ∃ res, env.phoneRate (u phone_number) (u country_code) = .ok res)
    (hcount : ¬ ((city ≠ "" ∧ country_code ≠ "" ∧
          ∃ res, env.addressRate (u country_code) (u postcode) (u city) = .ok res) ∧
        (phone_number ≠ "" ∧
          ∃ res, env.phoneRate (u phone_number) (u country_code) = .ok res))) :
    (lookup_vat env company city country_code postcode phone_number vatin).1 =
      .error (.vatAssessment "Insufficent information for VAT assessment") := by
  obtain ⟨a, la, hA, hai⟩ := address_signal_classify env city country_code postcode ha
  obtain ⟨p, lp, hP, hpi⟩ := phone_signal_classify env phone_number country_code hp
  have hnp : a = none ∨ p = none := by
    rcases ho : a with - | ra
    · exact Or.inl rfl
    rcases ho2 : p with - | rp
    · exact Or.inr rfl
    exfalso
    exact hcount ⟨by
        have := hai.mp (by rw [ho]; rfl)
        exact ⟨this.1, this.2.1, this.2.2⟩,
      by
        have := hpi.mp (by rw [ho2]; rfl)
        exact ⟨this.1, this.2⟩⟩
  have hcor := corroborate_insufficient env city country_code postcode phone_number
    a p la lp hA hP hnp
  by_cases hv : vatin = ""
  · subst hv
    rw [lookup_vat_no_vatin, hcor]
  · rcases hpath with h | ⟨n, cn, hval, hst⟩
    · exact absurd h hv
    · rw [lookup_vat_vatin_same_store env company city country_code postcode
        phone_number vatin n cn hv hval hst, hcor]

/-- Concrete environment for C5: the address service is indefinite, the
phone service would answer, and there is no VATIN. -/
def envC5 : Env :=
  testEnv "DE" (.error .invalidError)
    (.error .undefinitiveError)
    (.ok { rate := 1/5, country := "AT", exception := none })

/-- C5 witness: with the address signal indefinite only the phone signal
succeeds, so the concrete lookup fails with the insufficient-information
assessment error. -/
theorem c5_witness :
    envC5.addressRate (u "AT") (u "1010") (u "Wien") = .error .undefinitiveError ∧
    (lookup_vat envC5 "ACME" "Wien" "AT" "1010" "+43123" "").1 =
      .error (.vatAssessment "Insufficent information for VAT assessment") :=
  ⟨by rfl,
   c5_insufficient_information envC5 "ACME" "Wien" "AT" "1010" "+43123" ""
     (Or.inl rfl)
     (Or.inr (Or.inr (Or.inl (by rfl))))
     (Or.inr (Or.inr ⟨{ rate := 1/5, country := "AT", exception := none }, by rfl⟩))
     (by
       rintro ⟨⟨-, -, res, hres⟩, -⟩
       exact Except.noConfusion ((by rfl : envC5.addressRate (u "AT") (u "1010")
         (u "Wien") = .error .undefinitiveError).symm.trans hres))⟩

/-- C6: on the corroboration path, when both the address and the phone
lookup succeed, lookup_vat returns the common rate exactly when the two
rates are equal, and otherwise raises the business-rule assessment
failure for conflicting rates, irrespective of which rate is larger. -/
theorem c6_conflicting_rates (env : Env)
    (company city country_code postcode phone_number vatin : String)
    (resA resP : RateLookupResult)
    (hpath : vatin = "" ∨ ∃ n cn,
        env.validateVatin (u vatin) = .ok (country_code, n, cn) ∧
        country_code = env.VAT_MOSS_STORE_COUNTRY_CODE)
    (hcity : city ≠ "") (hcc : country_code ≠ "")
    (haddr : env.addressRate (u country_code) (u postcode) (u city) = .ok resA)
    (hph : phone_number ≠ "")
    (hphone : env.phoneRate (u phone_number) (u country_code) = .ok resP) :
    (lookup_vat env company city country_code postcode phone_number vatin).1 =
      (if resA.rate = resP.rate then .ok (some resA.rate)
       else .error (.vatAssessment ("Unable to work out applicable VAT rate " ++
         "based on address and phone information"))) := by
  have hA := address_signal_of_ok env city country_code postcode resA hcity hcc haddr
  have hP := phone_signal_of_ok env phone_number country_code resP hph hphone
  have hcor := corroborate_both env city country_code postcode phone_number
    resA.rate resP.rate _ _ hA hP
  have hfst : (lookup_vat_corroborate env city country_code postcode phone_number).1 =
      (if resA.rate = resP.rate then .ok (some resA.rate)
       else .error (.vatAssessment ("Unable to work out applicable VAT rate " ++
         "based on address and phone information"))) := by
    rw [hcor]
    by_cases hr : resA.rate = resP.rate <;> simp [hr]
  by_cases hv : vatin = ""
  · subst hv
    rw [lookup_vat_no_vatin, hfst]
  · rcases hpath with h | ⟨n, cn, hval, hst⟩
    · exact absurd h hv
    · rw [lookup_vat_vatin_same_store env company city country_code postcode
        phone_number vatin n cn hv hval hst]
      exact hfst

/-- Concrete environment for C6: the address service reports 20 percent,
the phone service 25 percent; the address rate is the smaller one. -/
def envC6 : Env :=
  testEnv "DE" (.error .invalidError)
    (.ok { rate := 1/5, country := "AT", exception := none })
    (.ok { rate := 1/4, country := "AT", exception := none })

/-- C6 witness: with both lookups successful but disagreeing (20 percent
from the address, 25 percent from the phone), the concrete lookup fails
with the conflicting-rates assessment error. -/
theorem c6_witness :
    envC6.addressRate (u "AT") (u "1010") (u "Wien") =
      .ok { rate := 1/5, country := "AT", exception := none } ∧
    envC6.phoneRate (u "+43123") (u "AT") =
      .ok { rate := 1/4, country := "AT", exception := none } ∧
    (1 : ℚ)/5 ≠ 1/4 ∧
    (lookup_vat envC6 "ACME" "Wien" "AT" "1010" "+43123" "").1 =
      .error (.vatAssessment ("Unable to work out applicable VAT rate " ++
        "based on address and phone information")) := by
  have hne : (1 : ℚ)/5 ≠ 1/4 := by norm_num
  refine ⟨by rfl, by rfl, hne, ?_⟩
  have h := c6_conflicting_rates envC6 "ACME" "Wien" "AT" "1010" "+43123" ""
    { rate := 1/5, country := "AT", exception := none }
    { rate := 1/4, country := "AT", exception := none }
    (Or.inl rfl) (by decide) (by decide) (by rfl) (by decide) (by rfl)
  rw [h, if_neg hne]

theorem roundHalfEven_of_floor_lt (q : ℚ) (n : ℤ) (hf : ⌊q⌋ = n)
    (h : q - (n : ℚ) < 1/2) : roundHalfEven q = n := by
  simp only [roundHalfEven, hf]
  rw [if_pos h]

theorem roundHalfEven_of_floor_gt (q : ℚ) (n : ℤ) (hf : ⌊q⌋ = n)
    (h : 1/2 < q - (n : ℚ)) : roundHalfEven q = n + 1 := by
  simp only [roundHalfEven, hf]
  rw [if_neg (by linarith), if_pos h]

theorem quantize2_eval_lt (q : ℚ) (n : ℤ) (r : ℚ) (hf : ⌊q * 100⌋ = n)
    (h : q * 100 - (n : ℚ) < 1/2) (hr : (n : ℚ) / 100 = r) : quantize2 q = r := by
  unfold quantize2
  rw [roundHalfEven_of_floor_lt (q * 100) n hf h, hr]

theorem quantize2_eval_gt (q : ℚ) (n : ℤ) (r : ℚ) (hf : ⌊q * 100⌋ = n)
    (h : 1/2 < q * 100 - (n : ℚ)) (hr : ((n : ℚ) + 1) / 100 = r) : quantize2 q = r := by
  unfold quantize2
  rw [roundHalfEven_of_floor_gt (q * 100) n hf h]
  push_cast
  rw [hr]

/-- C7: given a resolved rate, apply_to writes into every basket line the
unit tax round2(round2(P times rate) divided by Q) - the two-step
banker-rounding of the line tax and then of the per-unit tax - and
writes round2(S times rate) into the shipping charge. -/
theorem c7_apply_to_rounding (env : Env) (s : Submission) (rate : ℚ)
    (h : (lookup_vat_for_submission env s).1 = .ok (some rate)) :
    apply_to env s = .ok { s with
      basket := s.basket.map (fun line =>
        { line with tax := some (quantize2 (quantize2
            (line.line_price_excl_tax_incl_discounts * rate) /
              (line.quantity : ℚ))) }),
      shipping_charge := { s.shipping_charge with
        tax := some (quantize2 (s.shipping_charge.excl_tax * rate)) } } := by
  unfold apply_to
  rw [h]
  rfl

/-- Concrete environment for C7: no VATIN, both rate services agree on
20 percent. -/
def envC7 : Env :=
  testEnv "DE" (.error .invalidError)
    (.ok { rate := 1/5, country := "AT", exception := none })
    (.ok { rate := 1/5, country := "AT", exception := none })

/-- Concrete shipping address for C7. -/
def addrC7 : Address :=
  { organisation := none, line4 := some "Wien", country := some { code := "AT" },
    postcode := some "1010", phone_number := some "+43123", vatin := none }

/-- Concrete submission for C7: one line of price 10.00 with quantity 3
and a shipping charge of 5.00. -/
def subC7 : Submission :=
  { basket := [{ line_price_excl_tax_incl_discounts := 10, quantity := 3,
                 tax := none }],
    shipping_address := addrC7,
    shipping_charge := { excl_tax := 5, tax := none } }

/-- C7 witness: at rate 0.20 the line of price 10.00 and quantity 3 gets
line tax 2.00 and unit tax 0.67 (banker rounding of 2/3), and the 5.00
shipping charge gets tax 1.00. -/
theorem c7_witness :
    (lookup_vat_for_submission envC7 subC7).1 = .ok (some (1/5)) ∧
    apply_to envC7 subC7 = .ok
      { basket := [{ line_price_excl_tax_incl_discounts := 10, quantity := 3,
                     tax := some (67/100) }],
        shipping_address := addrC7,
        shipping_charge := { excl_tax := 5, tax := some 1 } } := by
  have hlook : (lookup_vat_for_submission envC7 subC7).1 = .ok (some (1/5)) := by
    simp +decide [lookup_vat_for_submission, lookup_vat_for_address,
      country_code_attr, lookup_vat, lookup_vat_corroborate, address_signal,
      phone_signal, lookup_vat_by_city, lookup_vat_by_phone_number, envC7,
      testEnv, subC7, addrC7, u, VERIFICATIONS_NEEDED, Exc.isTransientServiceError]
  have h1 : quantize2 ((10 : ℚ) * (1/5)) = 2 :=
    quantize2_eval_lt _ 200 2 (by rw [Int.floor_eq_iff] <;> norm_num)
      (by norm_num) (by norm_num)
  have h2 : quantize2 ((2 : ℚ) / ((3 : ℕ) : ℚ)) = 67/100 :=
    quantize2_eval_gt _ 66 (67/100) (by push_cast; rw [Int.floor_eq_iff] <;> norm_num)
      (by push_cast; norm_num) (by norm_num)
  have h3 : quantize2 ((5 : ℚ) * (1/5)) = 1 :=
    quantize2_eval_lt _ 100 1 (by rw [Int.floor_eq_iff] <;> norm_num)
      (by norm_num) (by norm_num)
  refine ⟨hlook, ?_⟩
  rw [c7_apply_to_rounding envC7 subC7 (1/5) hlook]
  simp only [subC7, addrC7, List.map_cons, List.map_nil, h1]
  rw [h2, h3]

/-- C8: any URLError / WebServiceError / WebServiceUnavailableError
surfacing from the lookups inside lookup_vat_for_address is re-raised as
the single assessment-unavailable failure with its fixed message; no
transient transport error ever escapes lookup_vat_for_address, and the
assessment-unavailable failure is a different exception from every
business-rule assessment failure. -/
theorem c8_transient_wrapped (env : Env) (a : Address) :
    (∀ c e, a.country = some c →
      (lookup_vat env (a.organisation.getD "") (a.line4.getD "") c.code
        (a.postcode.getD "") (a.phone_number.getD "") (a.vatin.getD "")).1 =
        .error e →
      e.isTransientServiceError = true →
      (lookup_vat_for_address env a).1 =
        .error (.vatAssessmentUnavailable "Temporary error in VAT assessment")) ∧
    (∀ e, (lookup_vat_for_address env a).1 = .error e →
      e.isTransientServiceError = false) ∧
    (∀ m, Exc.vatAssessmentUnavailable "Temporary error in VAT assessment" ≠
      Exc.vatAssessment m) := by
  refine ⟨?_, ?_, fun m => by simp⟩
  · intro c e hc hinner htrans
    have hre := hinner
    unfold lookup_vat_for_address
    rw [hc]
    simp only [country_code_attr]
    rcases hx : lookup_vat env (a.organisation.getD "") (a.line4.getD "") c.code
        (a.postcode.getD "") (a.phone_number.getD "") (a.vatin.getD "") with ⟨re, lg⟩
    rw [hx] at hre
    have hre2 : re = .error e := hre
    subst hre2
    simp [htrans]
  · intro e he
    rcases hc : a.country with - | c
    · unfold lookup_vat_for_address at he
      rw [hc] at he
      simp only [country_code_attr] at he
      have h2 : Exc.attributeError "str object has no attribute code" = e := by
        simpa using he
      rw [← h2]
      rfl
    · unfold lookup_vat_for_address at he
      rw [hc] at he
      simp only [country_code_attr] at he
      rcases hx : lookup_vat env (a.organisation.getD "") (a.line4.getD "") c.code
          (a.postcode.getD "") (a.phone_number.getD "") (a.vatin.getD "") with ⟨re, lg⟩
      rw [hx] at he
      cases re with
      | ok o => simp at he
      | error e0 =>
        by_cases ht : e0.isTransientServiceError = true
        · simp only [ht, if_true] at he
          have h2 : Exc.vatAssessmentUnavailable "Temporary error in VAT assessment"
              = e := by simpa using he
          rw [← h2]
          rfl
        · simp only [ht, if_false, Bool.false_eq_true] at he
          have h2 : e0 = e := by simpa using he
          rw [← h2]
          exact Bool.not_eq_true _ |>.mp ht

/-- Concrete environment for C8: the address-rate service raises
URLError (a connectivity failure). -/
def envC8 : Env :=
  testEnv "DE" (.error .invalidError)
    (.error .urlError)
    (.error .undefinitiveError)

/-- Concrete address for C8. -/
def addrC8 : Address :=
  { organisation := none, line4 := some "Wien", country := some { code := "AT" },
    postcode := some "1010", phone_number := some "+43123", vatin := none }

/-- C8 witness: the URLError surfacing from the address lookup is
re-raised by lookup_vat_for_address as the assessment-unavailable
failure. -/
theorem c8_witness :
    (lookup_vat envC8 (addrC8.organisation.getD "") (addrC8.line4.getD "")
      (Country.mk "AT").code (addrC8.postcode.getD "")
      (addrC8.phone_number.getD "") (addrC8.vatin.getD "")).1 =
      .error .urlError ∧
    Exc.urlError.isTransientServiceError = true ∧
    (lookup_vat_for_address envC8 addrC8).1 =
      .error (.vatAssessmentUnavailable "Temporary error in VAT assessment") := by
  have hin : (lookup_vat envC8 (addrC8.organisation.getD "") (addrC8.line4.getD "")
      (Country.mk "AT").code (addrC8.postcode.getD "")
      (addrC8.phone_number.getD "") (addrC8.vatin.getD "")).1 =
      .error .urlError := by
    simp +decide [lookup_vat, lookup_vat_corroborate, address_signal, phone_signal,
      lookup_vat_by_city, lookup_vat_by_phone_number, envC8, testEnv, addrC8, u,
      VERIFICATIONS_NEEDED]
  exact ⟨hin, by decide,
    (c8_transient_wrapped envC8 addrC8).1 (Country.mk "AT") .urlError (by rfl)
      hin (by decide)⟩

/-- The address with no fields at all, used for C9: every getattr default
applies, including the country default, which is the empty string. -/
def addressNoCountry : Address :=
  { organisation := none, line4 := none, country := none, postcode := none,
    phone_number := none, vatin := none }

/-- C9: lookup_vat_for_address is NOT total over a missing country
attribute: the getattr default for country is the empty string, and
reading its code attribute raises AttributeError before any lookup, for
every environment; the claim that the function always delegates to
lookup_vat fails on this input. -/
theorem c9_missing_country_attribute_error (env : Env) :
    lookup_vat_for_address env addressNoCountry =
      (.error (.attributeError "str object has no attribute code"), []) := by
  rfl

/-- C10: apply_to only writes the per-line tax and the shipping tax:
whenever it succeeds, the price-excluding-tax and quantity of every line,
the price-excluding-tax of the shipping charge, and the shipping address are
unchanged (the in-place mutation is modelled by the returned
submission). -/
theorem c10_apply_to_frame (env : Env) (s s2 : Submission)
    (h : apply_to env s = .ok s2) :
    s2.basket.map (fun l => (l.line_price_excl_tax_incl_discounts, l.quantity)) =
      s.basket.map (fun l => (l.line_price_excl_tax_incl_discounts, l.quantity)) ∧
    s2.shipping_charge.excl_tax = s.shipping_charge.excl_tax ∧
    s2.shipping_address = s.shipping_address := by
  unfold apply_to at h
  rcases hl : (lookup_vat_for_submission env s).1 with e | o
  · rw [hl] at h
    simp at h
  · rw [hl] at h
    cases o with
    | none => simp at h
    | some rate =>
      have h2 := Except.ok.inj h
      subst h2
      refine ⟨?_, rfl, rfl⟩
      simp only [List.map_map]
      rfl

/-- The submission produced by applying 20 percent tax to subC7. -/
def s2C10 : Submission :=
  { basket := [{ line_price_excl_tax_incl_discounts := 10, quantity := 3,
                 tax := some (67/100) }],
    shipping_address := addrC7,
    shipping_charge := { excl_tax := 5, tax := some 1 } }

/-- C10 witness: on the concrete submission, apply_to succeeds and the
frame theorem yields that prices, quantities, the shipping
price-excluding-tax and the shipping address are unchanged. -/
theorem c10_witness :
    apply_to envC7 subC7 = .ok s2C10 ∧
    (s2C10.basket.map (fun l => (l.line_price_excl_tax_incl_discounts, l.quantity)) =
      subC7.basket.map (fun l => (l.line_price_excl_tax_incl_discounts, l.quantity)) ∧
     s2C10.shipping_charge.excl_tax = subC7.shipping_charge.excl_tax ∧
     s2C10.shipping_address = subC7.shipping_address) := by
  have hlook : (lookup_vat_for_submission envC7 subC7).1 = .ok (some (1/5)) := by
    simp +decide [lookup_vat_for_submission, lookup_vat_for_address,
      country_code_attr, lookup_vat, lookup_vat_corroborate, address_signal,
      phone_signal, lookup_vat_by_city, lookup_vat_by_phone_number, envC7,
      testEnv, subC7, addrC7, u, VERIFICATIONS_NEEDED, Exc.isTransientServiceError]
  have h1 : quantize2 ((10 : ℚ) * (1/5)) = 2 :=
    quantize2_eval_lt _ 200 2 (by rw [Int.floor_eq_iff] <;> norm_num)
      (by norm_num) (by norm_num)
  have h2 : quantize2 ((2 : ℚ) / ((3 : ℕ) : ℚ)) = 67/100 :=
    quantize2_eval_gt _ 66 (67/100) (by push_cast; rw [Int.floor_eq_iff] <;> norm_num)
      (by push_cast; norm_num) (by norm_num)
  have h3 : quantize2 ((5 : ℚ) * (1/5)) = 1 :=
    quantize2_eval_lt _ 100 1 (by rw [Int.floor_eq_iff] <;> norm_num)
      (by norm_num) (by norm_num)
  have happ : apply_to envC7 subC7 = .ok s2C10 := by
    unfold apply_to
    rw [hlook]
    simp only [subC7, addrC7, s2C10, List.map_cons, List.map_nil, apply_line,
      calculate_tax, h1]
    rw [h2, h3]
  exact ⟨happ, c10_apply_to_frame envC7 subC7 s2C10 happ⟩
